import Mathlib

/-!
Verification development for the webhook/broadcast application in
`src/app.py` (FastAPI app "LIT Emergency Response API").

The embedding models:
  * JSON-like values (`Val`) standing for the Python dicts the handlers
    build, serialize with `json.dumps`, and publish;
  * form data (`Form`) with the `form_data.get(key, default)` access
    pattern used by each handler;
  * the mock services `MockASR`, `MockLLM`, `MockEmotionAnalysis`
    (app.py lines 155-181) and the flags selecting them (lines 184-186);
  * the in-memory broadcaster `MockBroadcaster` (lines 76-99): a set of
    subscriber queues, `publish` delivering to every queue, `subscribe`
    adding a fresh queue, and the `finally` clause removing it;
  * the three webhook handlers `handle_call` (212-237),
    `handle_recording` (239-284), `handle_response` (286-334);
  * the control flow of `websocket_endpoint` (337-355).

State is passed explicitly; the broadcaster state additionally carries a
ghost `log` of all (channel, message) pairs ever given to `publish`, used
only to state properties about "events actually published".
-/

/-- JSON-like values: the Python dicts, lists, strings and numbers that
`app.py` builds and publishes.  Objects keep key insertion order, as
Python dict literals do; numeric literals such as `0.7` are modelled as
rationals. -/
inductive Val where
  | str : String → Val
  | num : Rat → Val
  | arr : List Val → Val
  | obj : List (String × Val) → Val

/-- Key lookup in an object, `d[k]` / `k in d`; `none` on non-objects. -/
def Val.lookup : Val → String → Option Val
  | .obj kvs, k => kvs.lookup k
  | _, _ => none

/-- Parsed form data of a webhook request: ordered field/value pairs. -/
abbrev Form := List (String × String)

/-- Python `form_data.get(key, default)`. -/
def formGet (f : Form) (k d : String) : String := (f.lookup k).getD d

/-- Each handler wraps `await request.form()` in try/except and falls
back to the empty dict (app.py 214-217, 241-244, 288-291); `none` models
a request whose form fails to parse. -/
def formOrEmpty : Option Form → Form
  | some f => f
  | none => []

/-- MockASR.transcribe (app.py 155-157): constant transcription. -/
def MockASR.transcribe (audioFile : String) : String :=
  "This is a mock transcription for testing purposes."

/-- MockLLM.generate (app.py 159-168): constant triage dict. -/
def MockLLM.generate (transcript : String) : List (String × Val) :=
  [ ("emergency_type", .str "Medical"),
    ("priority", .str "High"),
    ("location", .str "123 Main St"),
    ("caller_name", .str "John Doe"),
    ("summary", .str "Mock emergency call for testing purposes"),
    ("recommended_actions", .arr [.str "Dispatch ambulance", .str "Notify hospital"]) ]

/-- MockEmotionAnalysis.analyze (app.py 170-181): constant emotion dict. -/
def MockEmotionAnalysis.analyze (transcript : String) : Val :=
  .obj [ ("emotions", .obj [ ("fear", .num ((7 : Rat)/10)),
                             ("distress", .num ((8 : Rat)/10)),
                             ("anxiety", .num ((6 : Rat)/10)),
                             ("calm", .num ((2 : Rat)/10)) ]),
         ("sentiment", .str "negative"),
         ("urgency", .str "high") ]

/-- Which services are available (app.py 184-186): `true` means the mock
object is installed (the corresponding optional package is missing),
`false` means the service variable is `None`. -/
structure Services where
  asr : Bool
  llm : Bool
  emotion : Bool
deriving DecidableEq, Repr

/-- The configuration in which all three mock services are active. -/
def mockServices : Services := ⟨true, true, true⟩

/-- State of the in-memory `MockBroadcaster` (app.py 76-99).
`subs` is the `self.subscribers` set: each element is one subscriber
queue, tagged with a number standing for the identity of the fresh
`asyncio.Queue` object; a queue value is the list of all messages ever
put on it, in order.  `nextId` supplies fresh identities.  `log` is a
ghost history of every `publish` call (channel, message), not present in
the Python state but definable from the trace; handlers only append to
it via `publish`. -/
structure BState where
  nextId : Nat
  subs : List (Nat × List Val)
  log : List (String × Val)

/-- The empty broadcaster, as built by `MockBroadcaster.__init__`. -/
def BState.init : BState := ⟨0, [], []⟩

/-- MockBroadcaster.publish (app.py 81-89): the `channel` argument is
ignored; the message is put on every subscriber queue.  (The Python code
serializes dict messages with `json.dumps` first; messages are kept as
values here, serialization being injective on them.) -/
def publish (s : BState) (channel : String) (m : Val) : BState :=
  { s with
    subs := s.subs.map (fun iq => (iq.1, iq.2 ++ [m])),
    log := s.log ++ [(channel, m)] }

/-- MockBroadcaster.subscribe, entry (app.py 91-94): a fresh
`asyncio.Queue` is created and added to `self.subscribers`; the
`channel` argument is ignored.  Returns the identity of the new queue. -/
def subscribe (s : BState) (channel : String) : BState × Nat :=
  ({ s with nextId := s.nextId + 1, subs := s.subs ++ [(s.nextId, [])] }, s.nextId)

/-- MockBroadcaster.subscribe, exit (app.py 98-99): the `finally` clause
runs `self.subscribers.remove(queue)` when the generator terminates,
normally or by exception. -/
def unsubscribe (s : BState) (i : Nat) : BState :=
  { s with subs := s.subs.filter (fun iq => iq.1 ≠ i) }

/-- Contents of subscriber queue `i`, if that queue is in the set. -/
def queueOf (s : BState) (i : Nat) : Option (List Val) := s.subs.lookup i

/-- Identities currently in the `self.subscribers` set. -/
def subIds (s : BState) : List Nat := s.subs.map (·.1)

/-- Run a sequence of publishes (channel, message). -/
def publishAll (s : BState) (ms : List (String × Val)) : BState :=
  ms.foldl (fun t cm => publish t cm.1 cm.2) s

/-- Queue identities are always below `nextId`; holds for `BState.init`
and is preserved by every operation. -/
def BState.wf (s : BState) : Prop := ∀ p ∈ s.subs, p.1 < s.nextId

/-- handle_call (app.py 212-237): reads `CallSid` with a default,
publishes a `call_started` event on channel `calls`, and returns a
success body.  There is no error path: a missing or unparsable form is
replaced by defaults and the function always returns its final dict
(which FastAPI serves with status 200). -/
def handle_call (s : BState) (form? : Option Form) : BState × Val :=
  let form_data := formOrEmpty form?
  let call_sid := formGet form_data "CallSid" "test-call-sid"
  let s1 := publish s "calls"
    (.obj [ ("event", .str "call_started"),
            ("call_sid", .str call_sid),
            ("status", .str "in-progress") ])
  (s1, .obj [ ("call_sid", .str call_sid),
              ("status", .str "in-progress"),
              ("message", .str "Call received and being processed") ])

/-- handle_recording (app.py 239-284): reads `RecordingSid`, `CallSid`,
`RecordingUrl` with defaults, transcribes (mock), analyzes emotions
(mock), publishes a `new_transcript` event on channel `transcripts`, and
returns a `processed` body.  No per-call state is read or written and no
error path exists. -/
def handle_recording (svc : Services) (s : BState) (form? : Option Form) :
    BState × Val :=
  let form_data := formOrEmpty form?
  let recording_sid := formGet form_data "RecordingSid" "test-recording-sid"
  let call_sid := formGet form_data "CallSid" "test-call-sid"
  let recording_url := formGet form_data "RecordingUrl" "https://example.com/recording.mp3"
  let transcript :=
    if svc.asr then MockASR.transcribe recording_url
    else "This is a mock transcript for testing purposes."
  let emotions :=
    if svc.emotion then MockEmotionAnalysis.analyze transcript
    else .obj [("fear", .num ((7 : Rat)/10)), ("distress", .num ((8 : Rat)/10))]
  let analysis : Val := .obj [("emotions", emotions), ("call_sid", .str call_sid)]
  let s1 := publish s "transcripts"
    (.obj [ ("event", .str "new_transcript"),
            ("call_sid", .str call_sid),
            ("transcript", .str transcript),
            ("analysis", analysis) ])
  (s1, .obj [ ("recording_sid", .str recording_sid),
              ("call_sid", .str call_sid),
              ("status", .str "processed"),
              ("transcript", .str transcript),
              ("analysis", analysis) ])

/-- handle_response (app.py 286-334): reads `CallSid` and `Transcript`
with defaults, computes the triage dict (literal default at 298-305,
replaced by `MockLLM.generate` when the LLM service is set) and the
emotions, publishes a `new_response` event on channel `responses` whose
fields repeat the response body (the source writes the two dict literals
independently, as done here), and returns the response body.  The mock
triage keys are disjoint from `event`, `call_sid` and `emotions`, so the
Python `**` dict spread is faithfully a list append. -/
def handle_response (svc : Services) (s : BState) (form? : Option Form) :
    BState × Val :=
  let form_data := formOrEmpty form?
  let call_sid := formGet form_data "CallSid" "test-call-sid"
  let transcript := formGet form_data "Transcript" "Mock transcript"
  let triage_default : List (String × Val) :=
    [ ("emergency_type", .str "Medical"),
      ("priority", .str "High"),
      ("location", .str "123 Main St"),
      ("caller_name", .str "John Doe"),
      ("summary", .str "Mock emergency call for testing purposes"),
      ("recommended_actions", .arr [.str "Dispatch ambulance", .str "Notify hospital"]) ]
  let triage_result := if svc.llm then MockLLM.generate transcript else triage_default
  let emotions :=
    if svc.emotion then MockEmotionAnalysis.analyze transcript
    else .obj [("fear", .num ((7 : Rat)/10)), ("distress", .num ((8 : Rat)/10))]
  let s1 := publish s "responses"
    (.obj (("event", Val.str "new_response") :: ("call_sid", Val.str call_sid) ::
      (triage_result ++ [("emotions", emotions)])))
  (s1, .obj (("call_sid", Val.str call_sid) :: (triage_result ++ [("emotions", emotions)])))

/-- Python exceptions raised and caught inside `websocket_endpoint`. -/
inductive PyError where
  | typeError
deriving DecidableEq, Repr

/-- Result of one whole /ws connection handled by `websocket_endpoint`:
the broadcaster state when the handler returns, the channels
successfully subscribed during its lifetime (in order), and the text
frames sent to the socket. -/
structure WsOutcome where
  state : BState
  subscribedChannels : List String
  forwarded : List Val

/-- The statement `async with broadcast.subscribe(channel=...)` as
executed by `websocket_endpoint` (app.py 343, 347, 351) against the
mock `Broadcast` wrapper (app.py 115-116).  `broadcast.subscribe(...)`
evaluates to a coroutine object, and a coroutine does not support the
asynchronous context manager protocol, so the statement raises
TypeError before `MockBroadcaster.subscribe` ever runs: no queue is
added and the broadcaster state is untouched.  (Awaiting the coroutine
would raise TypeError as well: `Broadcast.subscribe` awaits
`self.broadcaster.subscribe(channel)`, an async generator, which is not
awaitable.)  On success it would yield the state with the new queue and
the queue identity; that branch never occurs in the mock
configuration. -/
def wsAsyncWithSubscribe (s : BState) (channel : String) :
    Except PyError (BState × Nat) :=
  .error .typeError

/-- websocket_endpoint (app.py 337-355) in the mock configuration:
`websocket.accept()` succeeds, then the first statement of the try
block, `async with broadcast.subscribe(channel="calls")`, raises
TypeError; the except clause at line 354 catches and logs it and the
handler returns.  The second and third blocks never run.  The match arm
for a successful subscription is unreachable (`wsAsyncWithSubscribe`
always raises); it mirrors the block structure of the source, which
would forward the events of that single subscription. -/
def websocket_endpoint (s : BState) : WsOutcome :=
  match wsAsyncWithSubscribe s "calls" with
  | .error _ => { state := s, subscribedChannels := [], forwarded := [] }
  | .ok (s1, i) =>
      { state := s1, subscribedChannels := ["calls"],
        forwarded := (queueOf s1 i).getD [] }

/- ### Helper lemmas about the broadcaster model -/

theorem lookup_map_snd (i : Nat) (f : List Val → List Val) :
    ∀ l : List (Nat × List Val),
      (l.map (fun iq => (iq.1, f iq.2))).lookup i = (l.lookup i).map f := by
  intro l
  induction l with
  | nil => rfl
  | cons p t ih =>
    by_cases h : i == p.1 <;> simp [List.lookup, h, ih]

theorem queueOf_publish (s : BState) (c : String) (m : Val) (i : Nat) :
    queueOf (publish s c m) i = (queueOf s i).map (· ++ [m]) := by
  simp only [queueOf, publish]
  exact lookup_map_snd i (fun q => q ++ [m]) s.subs

theorem queueOf_publishAll :
    ∀ (ms : List (String × Val)) (s : BState) (i : Nat) (q : List Val),
      queueOf s i = some q →
      queueOf (publishAll s ms) i = some (q ++ ms.map (·.2)) := by
  intro ms
  induction ms with
  | nil => intro s i q h; simpa [publishAll] using h
  | cons cm t ih =>
    intro s i q h
    have h1 : queueOf (publish s cm.1 cm.2) i = some (q ++ [cm.2]) := by
      rw [queueOf_publish, h]; rfl
    have := ih (publish s cm.1 cm.2) i (q ++ [cm.2]) h1
    simpa [publishAll] using this

theorem lookup_append_fresh {β : Type} (i : Nat) (b : β) :
    ∀ l : List (Nat × β), (∀ p ∈ l, p.1 ≠ i) → (l ++ [(i, b)]).lookup i = some b := by
  intro l
  induction l with
  | nil => intro _; simp [List.lookup]
  | cons p t ih =>
    intro h
    have hp : p.1 ≠ i := h p (by simp)
    have hbeq : (i == p.1) = false := by
      simp [beq_iff_eq]
      exact fun he => hp he.symm
    simp [List.lookup, hbeq]
    exact ih (fun q hq => h q (by simp [hq]))

theorem queueOf_subscribe_self (s : BState) (ch : String) (hwf : s.wf) :
    queueOf (subscribe s ch).1 (subscribe s ch).2 = some [] := by
  have : ∀ p ∈ s.subs, p.1 ≠ s.nextId := by
    intro p hp
    exact Nat.ne_of_lt (hwf p hp)
  simpa [queueOf, subscribe] using lookup_append_fresh s.nextId [] s.subs this

/-- A fresh subscriber sees exactly the messages published after it
subscribed, in publish order, regardless of channels. -/
theorem subscriber_sees (s : BState) (ch : String) (hwf : s.wf)
    (ms : List (String × Val)) :
    queueOf (publishAll (subscribe s ch).1 ms) (subscribe s ch).2 =
      some (ms.map (·.2)) := by
  have h0 := queueOf_subscribe_self s ch hwf
  simpa using queueOf_publishAll ms (subscribe s ch).1 (subscribe s ch).2 [] h0

theorem subIds_publish (s : BState) (c : String) (m : Val) :
    subIds (publish s c m) = subIds s := by
  simp [subIds, publish]

theorem subIds_publishAll :
    ∀ (ms : List (String × Val)) (s : BState),
      subIds (publishAll s ms) = subIds s := by
  intro ms
  induction ms with
  | nil => intro s; rfl
  | cons cm t ih =>
    intro s
    simpa [publishAll, subIds_publish] using ih (publish s cm.1 cm.2)

theorem mem_subIds_subscribe (s : BState) (ch : String) :
    (subscribe s ch).2 ∈ subIds (subscribe s ch).1 := by
  simp [subscribe, subIds]

theorem not_mem_subIds_unsubscribe (s : BState) (i : Nat) :
    i ∉ subIds (unsubscribe s i) := by
  simp [subIds, unsubscribe, List.mem_map, List.mem_filter]

theorem lookup_filter_ne {β : Type} (i : Nat) :
    ∀ l : List (Nat × β), (l.filter (fun p => p.1 ≠ i)).lookup i = none := by
  intro l
  induction l with
  | nil => rfl
  | cons p t ih =>
    simp only [List.filter_cons]
    by_cases h : p.1 = i
    · rw [if_neg (by simp [h])]
      exact ih
    · rw [if_pos (by simp [h])]
      have hbeq : (i == p.1) = false := beq_eq_false_iff_ne.mpr (fun he => h he.symm)
      simp only [List.lookup, hbeq]
      exact ih

theorem queueOf_unsubscribe_self (s : BState) (i : Nat) :
    queueOf (unsubscribe s i) i = none := by
  simpa [queueOf, unsubscribe] using lookup_filter_ne i s.subs

theorem queueOf_publish_unsubscribe (s : BState) (i : Nat) (c : String) (m : Val) :
    queueOf (publish (unsubscribe s i) c m) i = none := by
  rw [queueOf_publish, queueOf_unsubscribe_self]
  rfl

theorem wf_init : BState.init.wf := by
  intro p hp
  simp [BState.init] at hp

theorem wf_publish (s : BState) (c : String) (m : Val) (hwf : s.wf) :
    (publish s c m).wf := by
  intro p hp
  simp only [publish, List.mem_map] at hp
  obtain ⟨q, hq, he⟩ := hp
  rw [← he]
  exact hwf q hq

theorem wf_subscribe (s : BState) (ch : String) (hwf : s.wf) :
    (subscribe s ch).1.wf := by
  intro p hp
  simp [subscribe] at hp
  rcases hp with hp | hp
  · exact Nat.lt_succ_of_lt (hwf p hp)
  · rw [hp]
    simp [subscribe]

/- ### Concrete inputs used by counterexamples -/

/-- A parsed recording-ready payload for call c1, recording rA. -/
def recFormA : Form :=
  [("CallSid", "c1"), ("RecordingSid", "rA"),
   ("RecordingUrl", "https://example.com/a.mp3")]

/-- A second recording-ready payload for the same call c1. -/
def recFormB : Form :=
  [("CallSid", "c1"), ("RecordingSid", "rB"),
   ("RecordingUrl", "https://example.com/b.mp3")]

/-- The event kinds named by the specification. -/
def specEventKinds : List String :=
  ["call_started", "transcript_ready", "triage_ready", "emotion_ready",
   "pipeline_failed"]

/- ### C1 -/

/-- C1 counterexample: the event actually published by `handle_call`
for call c1 carries no `sequence_number` field at all. -/
theorem C1_counterexample :
    (handle_call BState.init (some [("CallSid", "c1")])).1.log =
      [("calls", Val.obj [ ("event", .str "call_started"),
                           ("call_sid", .str "c1"),
                           ("status", .str "in-progress") ])] ∧
    (Val.obj [ ("event", .str "call_started"),
               ("call_sid", .str "c1"),
               ("status", .str "in-progress") ]).lookup "sequence_number" = none :=
  ⟨rfl, rfl⟩

/-- C1 (amended): no event published by any handler carries a
`sequence_number` field; nevertheless each subscriber queue receives the
events published after the subscription began in exact publish order,
with no duplicates and no gaps (the queue contents equal the published
sequence itself). -/
theorem published_events_lack_sequence_number_but_are_fifo :
    (∀ s f, ∃ m, (handle_call s f).1.log = s.log ++ [("calls", m)] ∧
        m.lookup "sequence_number" = none) ∧
    (∀ svc s f, ∃ m, (handle_recording svc s f).1.log = s.log ++ [("transcripts", m)] ∧
        m.lookup "sequence_number" = none) ∧
    (∀ svc s f, ∃ m, (handle_response svc s f).1.log = s.log ++ [("responses", m)] ∧
        m.lookup "sequence_number" = none) ∧
    (∀ s ch, s.wf → ∀ ms,
      queueOf (publishAll (subscribe s ch).1 ms) (subscribe s ch).2 =
        some (ms.map (·.2))) := by
  refine ⟨fun s f => ⟨_, rfl, rfl⟩, fun svc s f => ⟨_, rfl, rfl⟩, fun svc s f => ?_,
    fun s ch hwf ms => subscriber_sees s ch hwf ms⟩
  obtain ⟨a, l, e⟩ := svc
  cases l <;> exact ⟨_, rfl, rfl⟩

/-- C1 witness: concrete instance of the amended claim. -/
theorem C1_witness :
    (∃ m, (handle_call BState.init (some [("CallSid", "c1")])).1.log =
        BState.init.log ++ [("calls", m)] ∧ m.lookup "sequence_number" = none) ∧
    queueOf (publishAll (subscribe BState.init "calls").1
        [("transcripts", Val.str "x")]) (subscribe BState.init "calls").2 =
      some [Val.str "x"] :=
  ⟨published_events_lack_sequence_number_but_are_fifo.1 BState.init
      (some [("CallSid", "c1")]),
   published_events_lack_sequence_number_but_are_fifo.2.2.2 BState.init "calls"
      wf_init [("transcripts", Val.str "x")]⟩

/- ### C2 -/

/-- C2 counterexample: a second recording-ready call for call c1 issued
while the record of the first is already published is neither rejected
nor does it cancel the first: both invocations return their own full
`processed` body and both publishes persist in the history. -/
theorem C2_counterexample :
    (handle_recording mockServices BState.init (some recFormA)).2.lookup "status" =
      some (.str "processed") ∧
    (handle_recording mockServices BState.init (some recFormA)).2.lookup "recording_sid" =
      some (.str "rA") ∧
    (handle_recording mockServices
        (handle_recording mockServices BState.init (some recFormA)).1
        (some recFormB)).2.lookup "status" = some (.str "processed") ∧
    (handle_recording mockServices
        (handle_recording mockServices BState.init (some recFormA)).1
        (some recFormB)).2.lookup "recording_sid" = some (.str "rB") ∧
    (handle_recording mockServices
        (handle_recording mockServices BState.init (some recFormA)).1
        (some recFormB)).1.log.length = 2 :=
  ⟨rfl, rfl, rfl, rfl, rfl⟩

/-- C2 (amended): there is no per-call coalescing at all: the handler
keeps no in-flight state keyed by call_id, never rejects a call — every
response has status `processed` — and every invocation appends its own
transcript event to the publish history, so repeated or overlapping
calls for the same call_id each persist their results. -/
theorem recording_runs_are_independent_never_rejected :
    ∀ svc s f,
      (handle_recording svc s f).2.lookup "status" = some (.str "processed") ∧
      ∃ m, (handle_recording svc s f).1.log = s.log ++ [("transcripts", m)] :=
  fun svc s f => ⟨rfl, ⟨_, rfl⟩⟩

/- ### C3 -/

/-- C3 counterexample: a subscriber to channel `calls` receives an event
published to channel `transcripts`: MockBroadcaster ignores channels. -/
theorem C3_counterexample :
    queueOf (publish (subscribe BState.init "calls").1 "transcripts" (Val.str "t"))
        (subscribe BState.init "calls").2 = some [Val.str "t"] ∧
    "transcripts" ≠ "calls" :=
  ⟨rfl, by decide⟩

/-- C3 (amended): a subscriber created by subscribe(channel) receives
exactly the events published after its subscription began — in order,
nothing from before — but to ANY channel, not only its own: both
subscribe and publish ignore the channel argument. -/
theorem subscriber_receives_all_later_events_any_channel :
    ∀ s ch, s.wf →
      queueOf (subscribe s ch).1 (subscribe s ch).2 = some [] ∧
      ∀ ms, queueOf (publishAll (subscribe s ch).1 ms) (subscribe s ch).2 =
        some (ms.map (·.2)) :=
  fun s ch hwf => ⟨queueOf_subscribe_self s ch hwf, subscriber_sees s ch hwf⟩

/-- C3 witness: concrete instance of the amended claim. -/
theorem C3_witness :
    queueOf (publishAll (subscribe BState.init "calls").1
        [("transcripts", Val.str "a"), ("responses", Val.str "b")])
      (subscribe BState.init "calls").2 = some [Val.str "a", Val.str "b"] :=
  (subscriber_receives_all_later_events_any_channel BState.init "calls" wf_init).2
    [("transcripts", Val.str "a"), ("responses", Val.str "b")]

/- ### C4 -/

/-- C4 counterexample: a concrete /ws connection is subscribed to no
channel — in particular not to `calls`, let alone all three — and no
event is forwarded to it; the handler returns with the broadcaster
unchanged, so an event published after the connection reaches no
subscriber queue at all. -/
theorem C4_counterexample :
    (websocket_endpoint BState.init).subscribedChannels = [] ∧
    "calls" ∉ (websocket_endpoint BState.init).subscribedChannels ∧
    (websocket_endpoint BState.init).forwarded = [] ∧
    (publish (websocket_endpoint BState.init).state "calls" (Val.str "e")).subs = [] :=
  ⟨rfl, by decide, rfl, rfl⟩

/-- C4 (amended): in the mock configuration a new /ws connection is
subscribed to no channel at all and no published event is ever
forwarded to it as a frame: the first
`async with broadcast.subscribe(...)` raises TypeError before any queue
is created, the exception is caught at line 354 and the handler returns
with the broadcaster state exactly as it was. -/
theorem ws_connection_subscribes_nothing_and_forwards_nothing :
    ∀ s, (websocket_endpoint s).subscribedChannels = [] ∧
      (websocket_endpoint s).forwarded = [] ∧
      (websocket_endpoint s).state = s :=
  fun s => ⟨rfl, rfl, rfl⟩

/- ### C5 -/

/-- C5 counterexample: a webhook payload missing every required field
(the empty form) is not rejected: `handle_call` returns the ordinary
success body with the defaulted CallSid, served as a 2xx response; no
MalformedInput error exists anywhere in the handler. -/
theorem C5_counterexample :
    (handle_call BState.init (some [])).2 =
      Val.obj [ ("call_sid", .str "test-call-sid"),
                ("status", .str "in-progress"),
                ("message", .str "Call received and being processed") ] := rfl

/-- C5 (amended): a payload missing required fields is never rejected:
every field read falls back to a built-in default (CallSid to
`test-call-sid`) and the endpoint always returns the normal success
body, which FastAPI serves with status 200. -/
theorem missing_fields_default_to_success :
    ∀ s f,
      (handle_call s f).2.lookup "status" = some (.str "in-progress") ∧
      (handle_call s f).2.lookup "call_sid" =
        some (.str (formGet (formOrEmpty f) "CallSid" "test-call-sid")) ∧
      (handle_call s f).2.lookup "message" =
        some (.str "Call received and being processed") :=
  fun s f => ⟨rfl, rfl, rfl⟩

/- ### C6 -/

/-- C6 counterexample: the recording-ready webhook publishes, on channel
`transcripts`, an event of kind `new_transcript`, which is not in the
closed set of kinds named by the specification (in particular it is not
`transcript_ready`). -/
theorem C6_counterexample :
    ((handle_recording mockServices BState.init (some recFormA)).1.log.head?).map
        (fun cm => (cm.1, cm.2.lookup "event")) =
      some ("transcripts", some (.str "new_transcript")) ∧
    "new_transcript" ∉ specEventKinds :=
  ⟨rfl, by decide⟩

/-- C6 (amended): every event published on the bus has a kind drawn from
the closed set now containing call_started, new_transcript and
new_response: the call webhook publishes `call_started` on `calls`, the
recording webhook publishes `new_transcript` on `transcripts`, and the
response webhook publishes `new_response` on `responses`. -/
theorem event_kinds_are_the_actual_three :
    (∀ s f, ∃ m, (handle_call s f).1.log = s.log ++ [("calls", m)] ∧
        m.lookup "event" = some (.str "call_started")) ∧
    (∀ svc s f, ∃ m, (handle_recording svc s f).1.log = s.log ++ [("transcripts", m)] ∧
        m.lookup "event" = some (.str "new_transcript")) ∧
    (∀ svc s f, ∃ m, (handle_response svc s f).1.log = s.log ++ [("responses", m)] ∧
        m.lookup "event" = some (.str "new_response")) :=
  ⟨fun s f => ⟨_, rfl, rfl⟩, fun svc s f => ⟨_, rfl, rfl⟩,
   fun svc s f => ⟨_, rfl, rfl⟩⟩

/- ### C7 -/

/-- C7: when a subscription stream created at any state terminates after
any sequence of publishes, the finally clause removes exactly its queue:
the queue is present when removed (so the set removal raises no error),
the subscriber set no longer contains it, and a subsequent publish to
any channel is not delivered to it. -/
theorem disconnect_removes_subscription :
    ∀ s ch ms c m,
      (subscribe s ch).2 ∈ subIds (publishAll (subscribe s ch).1 ms) ∧
      (subscribe s ch).2 ∉
        subIds (unsubscribe (publishAll (subscribe s ch).1 ms) (subscribe s ch).2) ∧
      queueOf (publish (unsubscribe (publishAll (subscribe s ch).1 ms)
          (subscribe s ch).2) c m) (subscribe s ch).2 = none := by
  intro s ch ms c m
  refine ⟨?_, not_mem_subIds_unsubscribe _ _, queueOf_publish_unsubscribe _ _ _ _⟩
  rw [subIds_publishAll]
  exact mem_subIds_subscribe s ch

/- ### C8 -/

/-- C8: replaying the same recording-ready webhook for an
already-processed call is idempotent with respect to the transcript: the
handler keeps no per-call state, so the second invocation returns a body
identical to the first — in particular an identical transcript field —
and no transcript segment is appended or duplicated anywhere. -/
theorem recording_replay_is_idempotent :
    ∀ svc s f,
      (handle_recording svc (handle_recording svc s f).1 f).2 =
        (handle_recording svc s f).2 ∧
      (handle_recording svc (handle_recording svc s f).1 f).2.lookup "transcript" =
        (handle_recording svc s f).2.lookup "transcript" :=
  fun svc s f => ⟨rfl, rfl⟩

/- ### C9 -/

/-- C9: for every response-requested webhook, the object published on
the responses channel equals the HTTP response body extended with
exactly one extra field, `event` (set to the event kind), prepended:
call_sid, every triage field and the emotions are identical. -/
theorem response_publish_equals_body_plus_event :
    ∀ svc s f, ∃ fields : List (String × Val),
      (handle_response svc s f).2 = Val.obj fields ∧
      (handle_response svc s f).1.log =
        s.log ++ [("responses", Val.obj (("event", Val.str "new_response") :: fields))] :=
  fun svc s f => ⟨_, rfl, rfl⟩

/- ### C10 -/

/-- C10: with the mock services active, handle_response is
deterministic and reads no hidden mutable state: from any two broadcaster
states, the same form yields an identical response body and an identical
newly published message. -/
theorem response_is_deterministic_under_mocks :
    ∀ s1 s2 f,
      (handle_response mockServices s1 f).2 = (handle_response mockServices s2 f).2 ∧
      ∃ m, (handle_response mockServices s1 f).1.log = s1.log ++ [("responses", m)] ∧
        (handle_response mockServices s2 f).1.log = s2.log ++ [("responses", m)] :=
  fun s1 s2 f => ⟨rfl, ⟨_, rfl, rfl⟩⟩
